import Mathlib

/-!
Shallow embedding of the core of `app.py`: the loader/deriver
(`load_data` with its inner `get_rating`), the filter expression building
`filtered_df`, the KPI aggregations, and the Top-10 leaderboard selection
(`nlargest`).  Prices are embedded as rationals; a pandas `NaN` result of
an aggregation over an empty series is embedded as `Option.none`.
-/

/-- A fully-typed row of the loaded dataset, after a successful load: all
columns required by the dashboard are present.  Mirrors the columns of
`cleaned_books_data (1).csv` that the core logic reads. -/
structure Book where
  title : String
  price : ℚ
  title_length : ℕ
  price_category : String
  rating_four : Bool
  rating_one : Bool
  rating_three : Bool
  rating_two : Bool
deriving DecidableEq, Repr

/-- A row with its derived `rating_score` column, as produced by
`df.apply(get_rating, axis=1)` in `load_data`. -/
structure RatedBook extends Book where
  rating_score : ℕ
deriving DecidableEq, Repr

/-- The inner `get_rating(row)` of `load_data` (app.py lines 12-17):
first match wins in the order rating_four, rating_one, rating_three,
rating_two, with 5 as the fallback. -/
def get_rating (row : Book) : ℕ :=
  if row.rating_four then 4
  else if row.rating_one then 1
  else if row.rating_three then 3
  else if row.rating_two then 2
  else 5

/-- One step of `df['rating_score'] = df.apply(get_rating, axis=1)`:
attach the derived score to a row. -/
def add_rating (b : Book) : RatedBook :=
  { toBook := b, rating_score := get_rating b }

/-- The derivation pass of `load_data` over a well-typed table: every row
gets a `rating_score` column (app.py line 19). -/
def derive_table (df : List Book) : List RatedBook :=
  df.map add_rating

/-- The sidebar filter state: the two ends of the price slider and the
two multiselect lists (app.py lines 29, 33, 37). -/
structure FilterCriteria where
  price_min : ℚ
  price_max : ℚ
  selected_cat : List String
  selected_ratings : List ℕ
deriving DecidableEq, Repr

/-- The row predicate of the boolean-mask expression on app.py lines
39-43: `(df['price'] >= lo) & (df['price'] <= hi) &
df['price_category'].isin(selected_cat) &
df['rating_score'].isin(selected_ratings)`. -/
def matchesCriteria (c : FilterCriteria) (b : RatedBook) : Bool :=
  decide (c.price_min ≤ b.price) && decide (b.price ≤ c.price_max) &&
  decide (b.price_category ∈ c.selected_cat) &&
  decide (b.rating_score ∈ c.selected_ratings)

/-- `filtered_df` (app.py lines 39-43): the rows of `df` whose mask bit
is true, in table order. -/
def filtered_df (df : List RatedBook) (c : FilterCriteria) : List RatedBook :=
  df.filter (matchesCriteria c)

/-- pandas `Series.mean()`: `NaN` (embedded as `none`) on an empty
series, otherwise the arithmetic mean. -/
def series_mean (xs : List ℚ) : Option ℚ :=
  if xs = [] then none else some (xs.sum / xs.length)

/-- The Avg. Price KPI source, `filtered_df['price'].mean()` (app.py
line 58): no emptiness guard. -/
def avg_price (v : List RatedBook) : Option ℚ :=
  series_mean (v.map (fun b => b.price))

/-- The Avg. Title Length KPI source, `filtered_df['title_length'].mean()
if not filtered_df.empty else 0` (app.py line 62). -/
def avg_len (v : List RatedBook) : ℚ :=
  if v = [] then 0
  else ((v.map (fun b => (b.title_length : ℚ))).sum) / v.length

/-- Ordering used by `nlargest(10, 'price')`: `a` before `b` when `a`'s
price is at least `b`'s. -/
def priceGE (a b : RatedBook) : Prop := b.price ≤ a.price

instance : DecidableRel priceGE :=
  fun a b => inferInstanceAs (Decidable (b.price ≤ a.price))

instance : IsTotal RatedBook priceGE :=
  ⟨fun a b => (le_total b.price a.price).elim Or.inl Or.inr⟩

instance : IsTrans RatedBook priceGE :=
  ⟨fun _ _ _ h₁ h₂ => le_trans h₂ h₁⟩

/-- pandas `DataFrame.nlargest(n, 'price')` with the default
`keep='first'`: the first `n` rows of the table stably sorted by
descending price. -/
def nlargest (n : ℕ) (v : List RatedBook) : List RatedBook :=
  (List.insertionSort priceGE v).take n

/-- `top_10 = filtered_df.nlargest(10, 'price')[['title', 'price']]`
(app.py line 131). -/
def top_10 (v : List RatedBook) : List (String × ℚ) :=
  (nlargest 10 v).map (fun b => (b.title, b.price))

/-- A concrete rated book with a given price, all indicators false, used
in concrete evaluations. -/
def plainBook (p : ℚ) : RatedBook :=
  add_rating { title := "b", price := p, title_length := 1,
               price_category := "Low", rating_four := false,
               rating_one := false, rating_three := false,
               rating_two := false }

/-- Eleven plain books with prices 0..10, a view larger than the Top-10
cutoff. -/
def elevenBooks : List RatedBook :=
  (List.range 11).map (fun i => plainBook i)

/-- A raw CSV row as `pd.read_csv` hands it to the loader: each required
column is either present (`some`) or absent from the file (`none`).  A
missing column is missing uniformly, so `none` per field models its
absence. -/
structure RawRow where
  title : Option String
  price : Option ℚ
  title_length : Option ℕ
  price_category : Option String
  rating_four : Option Bool
  rating_one : Option Bool
  rating_three : Option Bool
  rating_two : Option Bool
deriving DecidableEq, Repr

/-- The two failure modes of the load path: `pd.read_csv` raising because
the file cannot be read (spec name `SourceUnavailableError`), and a
`KeyError` from `row['...']` on a missing column inside `get_rating`
(spec name `SchemaError`). -/
inductive LoadError where
  | sourceUnavailable : LoadError
  | schemaError : LoadError
deriving DecidableEq, Repr

/-- `get_rating` as executed on a raw row: Python evaluates each
`row['rating_*']` subscript lazily, so a `KeyError` (`schemaError`) is
raised only for a column the control flow actually reads. -/
def get_rating_raw (row : RawRow) : Except LoadError ℕ :=
  match row.rating_four with
  | none => .error .schemaError
  | some true => .ok 4
  | some false =>
    match row.rating_one with
    | none => .error .schemaError
    | some true => .ok 1
    | some false =>
      match row.rating_three with
      | none => .error .schemaError
      | some true => .ok 3
      | some false =>
        match row.rating_two with
        | none => .error .schemaError
        | some true => .ok 2
        | some false => .ok 5

/-- `df.apply(get_rating, axis=1)` over raw rows: the first raised
exception aborts the whole apply, otherwise every row is paired with its
score. -/
def apply_ratings : List RawRow → Except LoadError (List (RawRow × ℕ))
  | [] => .ok []
  | r :: rs =>
    match get_rating_raw r with
    | .error e => .error e
    | .ok s =>
      match apply_ratings rs with
      | .error e => .error e
      | .ok rest => .ok ((r, s) :: rest)

/-- `load_data` (app.py lines 8-20): `pd.read_csv` on an unreadable
source raises (`sourceUnavailable`); otherwise the rating column is
derived row by row.  The source is `none` when the CSV cannot be read. -/
def load_data (src : Option (List RawRow)) : Except LoadError (List (RawRow × ℕ)) :=
  match src with
  | none => .error .sourceUnavailable
  | some rows => apply_ratings rows

/-- A raw row with every rating-indicator column present and false, but
with the `price` column absent. -/
def rowNoPrice : RawRow :=
  { title := some "t", price := none, title_length := some 1,
    price_category := some "Low", rating_four := some false,
    rating_one := some false, rating_three := some false,
    rating_two := some false }

/-- A raw row whose `rating_four` column is absent. -/
def rowNoR4 : RawRow :=
  { title := some "t", price := some 3, title_length := some 1,
    price_category := some "Low", rating_four := none,
    rating_one := some false, rating_three := some false,
    rating_two := some false }

/-- A raw row whose `rating_four` column is present and false but whose
`rating_one` column is absent, so the lazy derivation reads the missing
column. -/
def rowNoR1 : RawRow :=
  { title := some "u", price := some 4, title_length := some 1,
    price_category := some "Low", rating_four := some false,
    rating_one := none, rating_three := some false,
    rating_two := some false }

/-- A concrete book with every rating indicator set. -/
def bookAll : Book :=
  { title := "a", price := 7, title_length := 1, price_category := "High",
    rating_four := true, rating_one := true, rating_three := true,
    rating_two := true }

/-- Same indicators as `bookAll`, all other fields different. -/
def bookAllAlt : Book :=
  { title := "zz", price := 99, title_length := 2, price_category := "Low",
    rating_four := true, rating_one := true, rating_three := true,
    rating_two := true }

/-- A concrete book with no rating indicator set. -/
def bookNone : Book :=
  { title := "n", price := 2, title_length := 1, price_category := "Low",
    rating_four := false, rating_one := false, rating_three := false,
    rating_two := false }

/-- Concrete filter criteria whose selections are nonempty. -/
def critAll : FilterCriteria :=
  { price_min := 0, price_max := 100, selected_cat := ["Low"],
    selected_ratings := [5] }

/-- Concrete filter criteria with both multiselect lists empty, the state
after deselecting everything in the sidebar. -/
def critNone : FilterCriteria :=
  { price_min := 0, price_max := 100, selected_cat := [],
    selected_ratings := [] }

/-- C1: the derived rating follows the exact precedence 4, 1, 3, 2,
default 5: `rating_four` wins regardless of the other indicators, then
`rating_one`, then `rating_three`, then `rating_two`, and a record with
no indicator set scores 5. -/
theorem get_rating_precedence (b : Book) :
    (b.rating_four = true → get_rating b = 4) ∧
    (b.rating_four = false → b.rating_one = true → get_rating b = 1) ∧
    (b.rating_four = false → b.rating_one = false → b.rating_three = true →
      get_rating b = 3) ∧
    (b.rating_four = false → b.rating_one = false → b.rating_three = false →
      b.rating_two = true → get_rating b = 2) ∧
    (b.rating_four = false → b.rating_one = false → b.rating_three = false →
      b.rating_two = false → get_rating b = 5) := by
  refine ⟨fun h4 => ?_, fun h4 h1 => ?_, fun h4 h1 h3 => ?_,
    fun h4 h1 h3 h2 => ?_, fun h4 h1 h3 h2 => ?_⟩ <;>
    simp [get_rating, *]

/-- Concrete instance of C1: a record with all four indicators set scores
4, a record with none set scores 5. -/
theorem get_rating_precedence_witness :
    get_rating bookAll = 4 ∧ get_rating bookNone = 5 :=
  ⟨(get_rating_precedence bookAll).1 rfl,
   (get_rating_precedence bookNone).2.2.2.2 rfl rfl rfl rfl⟩

/-- C2: a record is in `filtered_df` iff it is in the table and its price
lies in the inclusive slider range and its category and rating are in the
selected lists; the three predicates are conjunctive. -/
theorem filtered_df_mem (df : List RatedBook) (c : FilterCriteria)
    (b : RatedBook) :
    b ∈ filtered_df df c ↔
      b ∈ df ∧ c.price_min ≤ b.price ∧ b.price ≤ c.price_max ∧
        b.price_category ∈ c.selected_cat ∧
        b.rating_score ∈ c.selected_ratings := by
  simp [filtered_df, matchesCriteria, List.mem_filter, and_assoc]

/-- C5: with an empty category selection, or with an empty rating
selection, the filtered view is empty, whatever the table, the price
bounds and the other selection. -/
theorem filtered_df_empty_selection (df : List RatedBook) (pmin pmax : ℚ)
    (cats : List String) (rats : List ℕ) :
    filtered_df df ⟨pmin, pmax, [], rats⟩ = [] ∧
    filtered_df df ⟨pmin, pmax, cats, []⟩ = [] := by
  constructor <;> simp [filtered_df, List.filter_eq_nil_iff, matchesCriteria]

/-- C6: the filtered view is a subsequence of the table (an
order-preserving subset), and the filter is a pure function of the table
and the criteria: equal inputs by value give an identical result. -/
theorem filtered_df_pure (df df' : List RatedBook) (c c' : FilterCriteria)
    (hdf : df = df') (hc : c = c') :
    (filtered_df df c).Sublist df ∧ filtered_df df c = filtered_df df' c' := by
  subst hdf; subst hc
  exact ⟨List.filter_sublist df, rfl⟩

/-- Concrete instance of C6 at an eleven-row table and nonempty
criteria. -/
theorem filtered_df_pure_witness :
    (filtered_df elevenBooks critAll).Sublist elevenBooks ∧
    filtered_df elevenBooks critAll = filtered_df elevenBooks critAll :=
  filtered_df_pure elevenBooks elevenBooks critAll critAll rfl rfl

/-- C7: the derivation pass is total: it keeps every record (same length,
same underlying rows in order) and assigns every record a score between 1
and 5, whatever the indicator combination. -/
theorem derive_table_total (df : List Book) :
    (derive_table df).length = df.length ∧
    (∀ r ∈ derive_table df, 1 ≤ r.rating_score ∧ r.rating_score ≤ 5) ∧
    (derive_table df).map RatedBook.toBook = df := by
  refine ⟨List.length_map _ _, ?_, ?_⟩
  · intro r hr
    obtain ⟨b, _, rfl⟩ := List.mem_map.mp hr
    show 1 ≤ get_rating b ∧ get_rating b ≤ 5
    unfold get_rating
    split_ifs <;> omega
  · have h : RatedBook.toBook ∘ add_rating = id := rfl
    rw [derive_table, List.map_map, h, List.map_id]

/-- Concrete instance of C7: the derived table over a contradictory
record (all four indicators set) keeps the record and scores it within 1
and 5. -/
theorem derive_table_total_witness :
    (derive_table [bookAll]).length = 1 ∧
    (1 ≤ (add_rating bookAll).rating_score ∧
      (add_rating bookAll).rating_score ≤ 5) :=
  ⟨(derive_table_total [bookAll]).1,
   (derive_table_total [bookAll]).2.1 (add_rating bookAll) (by decide)⟩

/-- C9: the derived rating depends only on the four indicator fields: two
records agreeing on them get the same score, whatever their title, price,
title length or category. -/
theorem get_rating_noninterference (b₁ b₂ : Book)
    (h4 : b₁.rating_four = b₂.rating_four)
    (h1 : b₁.rating_one = b₂.rating_one)
    (h3 : b₁.rating_three = b₂.rating_three)
    (h2 : b₁.rating_two = b₂.rating_two) :
    get_rating b₁ = get_rating b₂ := by
  unfold get_rating
  rw [h4, h1, h3, h2]

/-- Concrete instance of C9: two records equal on the indicators and
different everywhere else get the same score. -/
theorem get_rating_noninterference_witness :
    get_rating bookAll = get_rating bookAllAlt :=
  get_rating_noninterference bookAll bookAllAlt rfl rfl rfl rfl

/-- C3 (evaluation at the failing input): on an empty filtered view the
Avg. Price KPI of line 58 is `NaN` (no emptiness guard around
`filtered_df['price'].mean()`), while the guarded Avg. Title Length KPI
of line 62 is 0 as the spec demands. -/
theorem avg_price_nan_on_empty_view :
    filtered_df elevenBooks critNone = [] ∧
    avg_price (filtered_df elevenBooks critNone) = none ∧
    avg_len (filtered_df elevenBooks critNone) = 0 := by
  refine ⟨?_, ?_, ?_⟩ <;> decide

/-- Counterexample to C4 as stated: a source whose `price` column is
absent (all rating-indicator columns present) loads successfully instead
of failing with a `SchemaError`; the load only ever reads the four
rating-indicator columns. -/
theorem load_data_missing_price_loads :
    rowNoPrice.price = none ∧
    load_data (some [rowNoPrice]) = .ok [(rowNoPrice, 5)] :=
  ⟨rfl, rfl⟩

/-- The only exception the per-row derivation can raise is the
`KeyError` of a missing column, embedded as `schemaError`. -/
theorem get_rating_raw_error_eq (row : RawRow) (e : LoadError)
    (h : get_rating_raw row = .error e) : e = .schemaError := by
  unfold get_rating_raw at h
  repeat' split at h
  all_goals first
    | (injection h with h'; exact h'.symm)
    | cases h

/-- A row anywhere in the table whose derivation raises `schemaError`
makes the whole apply raise `schemaError`: either an earlier row already
raises (and by `get_rating_raw_error_eq` that is also a `schemaError`) or
the error propagates through the recursion. -/
theorem apply_ratings_error_of_mem (rows : List RawRow) (r : RawRow)
    (hr : r ∈ rows) (herr : get_rating_raw r = .error .schemaError) :
    apply_ratings rows = .error .schemaError := by
  induction rows with
  | nil => cases hr
  | cons r' rs ih =>
    rw [apply_ratings]
    rcases List.mem_cons.mp hr with rfl | hmem
    · rw [herr]
    · cases hg : get_rating_raw r' with
      | error e =>
        have he := get_rating_raw_error_eq r' e hg
        subst he
        rfl
      | ok s =>
        rw [ih hmem]

/-- C4 amended: the load fails with `SourceUnavailableError` when the
source cannot be read; it fails with `SchemaError` when a
rating-indicator column the derivation actually reads is absent — any of
the four columns, characterised by the lazy read order, and the error
fires from any row of the table, not only the first; and it never
performs a partial load — a successful load returns exactly the source
rows in order. -/
theorem load_data_failure_modes :
    load_data none = .error .sourceUnavailable ∧
    (∀ r, (r.rating_four = none ∨
        r.rating_four = some false ∧ r.rating_one = none ∨
        r.rating_four = some false ∧ r.rating_one = some false ∧
          r.rating_three = none ∨
        r.rating_four = some false ∧ r.rating_one = some false ∧
          r.rating_three = some false ∧ r.rating_two = none) →
      get_rating_raw r = .error .schemaError) ∧
    (∀ rows r, r ∈ rows → get_rating_raw r = .error .schemaError →
      load_data (some rows) = .error .schemaError) ∧
    (∀ rows out, load_data (some rows) = .ok out →
      out.map Prod.fst = rows) := by
  refine ⟨rfl, ?_, ?_, ?_⟩
  · intro r hr
    rcases hr with h4 | ⟨h4, h1⟩ | ⟨h4, h1, h3⟩ | ⟨h4, h1, h3, h2⟩ <;>
      simp [get_rating_raw, *]
  · intro rows r hr herr
    exact apply_ratings_error_of_mem rows r hr herr
  · intro rows
    induction rows with
    | nil =>
      intro out h
      cases h
      rfl
    | cons r rs ih =>
      intro out h
      have h' : apply_ratings (r :: rs) = .ok out := h
      rw [apply_ratings] at h'
      cases hg : get_rating_raw r with
      | error e => rw [hg] at h'; cases h'
      | ok s =>
        rw [hg] at h'
        cases ha : apply_ratings rs with
        | error e => rw [ha] at h'; cases h'
        | ok rest =>
          rw [ha] at h'
          cases h'
          simpa using ih rest ha

/-- Concrete instance of the amended C4: a missing `rating_one` column
read after a false `rating_four` raises `SchemaError`; the error also
fires when the first missing read happens past the head row (here on the
second row); and a successful load keeps exactly the source rows. -/
theorem load_data_failure_modes_witness :
    get_rating_raw rowNoR1 = .error .schemaError ∧
    load_data (some [rowNoPrice, rowNoR4]) = .error .schemaError ∧
    [(rowNoPrice, 5)].map Prod.fst = [rowNoPrice] :=
  ⟨load_data_failure_modes.2.1 rowNoR1 (Or.inr (Or.inl ⟨rfl, rfl⟩)),
   load_data_failure_modes.2.2.1 [rowNoPrice, rowNoR4] rowNoR4
     (by decide) rfl,
   load_data_failure_modes.2.2.2 [rowNoPrice] [(rowNoPrice, 5)] rfl⟩

/-- C10: the Top-10 selection returns exactly `min 10 n` rows, every
selected row's price is at least every non-selected row's price, and a
view with at most 10 rows comes back whole (as a permutation, since
`nlargest` reorders by descending price). -/
theorem nlargest_top10 (v : List RatedBook) :
    (nlargest 10 v).length = min 10 v.length ∧
    (∀ s ∈ nlargest 10 v, ∀ t ∈ v, t ∉ nlargest 10 v → t.price ≤ s.price) ∧
    (v.length ≤ 10 → (nlargest 10 v).Perm v) := by
  have hperm : (List.insertionSort priceGE v).Perm v :=
    List.perm_insertionSort priceGE v
  have hsorted : List.Pairwise priceGE (List.insertionSort priceGE v) :=
    List.sorted_insertionSort priceGE v
  refine ⟨?_, ?_, ?_⟩
  · rw [nlargest, List.length_take, hperm.length_eq]
  · intro a ha t htv htn
    have hts : t ∈ List.insertionSort priceGE v := hperm.symm.subset htv
    have hsplit :
        t ∈ (List.insertionSort priceGE v).take 10 ∨
        t ∈ (List.insertionSort priceGE v).drop 10 := by
      rw [← List.mem_append, List.take_append_drop]
      exact hts
    have htd : t ∈ (List.insertionSort priceGE v).drop 10 :=
      hsplit.resolve_left htn
    have hpw : List.Pairwise priceGE
        ((List.insertionSort priceGE v).take 10 ++
          (List.insertionSort priceGE v).drop 10) := by
      rw [List.take_append_drop]
      exact hsorted
    exact (List.pairwise_append.mp hpw).2.2 a ha t htd
  · intro hlen
    have hle : (List.insertionSort priceGE v).length ≤ 10 := by
      rw [hperm.length_eq]
      exact hlen
    rw [nlargest, List.take_of_length_le hle]
    exact hperm

/-- Concrete instance of C10 on an eleven-row view with prices 0..10: the
selection has ten rows, the excluded cheapest row is at most the selected
most expensive one, and a three-row view comes back whole. -/
theorem nlargest_top10_witness :
    (nlargest 10 elevenBooks).length = min 10 elevenBooks.length ∧
    (plainBook 0).price ≤ (plainBook 10).price ∧
    (nlargest 10 (List.take 3 elevenBooks)).Perm (List.take 3 elevenBooks) := by
  refine ⟨(nlargest_top10 elevenBooks).1, ?_,
    (nlargest_top10 (List.take 3 elevenBooks)).2.2 (by decide)⟩
  exact (nlargest_top10 elevenBooks).2.1 (plainBook 10) (by decide)
    (plainBook 0) (by decide) (by decide)
